import Mathlib

/-!
Shallow embedding of `analysisapp.py` (Healthcare Facility Locator).

The app's HTTP providers are abstracted as pure response functions; Streamlit's
`st.error` / `st.write` calls are modelled as a list of emitted messages; the
`while True` pagination loop is given explicit fuel, with a distinguished
`diverge` outcome standing for non-termination and `exn` standing for an
uncaught Python exception. Floats carry no arithmetic in this program, so
coordinates are modelled as rationals.
-/

/-- One feature of a Geoapify places response, as the code reads it:
`feature.get("properties", {}).get("name")`, `...get("formatted")` and
`feature.get("geometry", {}).get("coordinates", [])`. A missing key is `none`
(for the two strings) or the empty list (for coordinates). -/
structure Feature where
  name : Option String
  formatted : Option String
  coordinates : List ℚ
deriving DecidableEq

/-- One row of the facilities table built in
`fetch_healthcare_data_within_state_paginated`. -/
structure Facility where
  name : String
  address : String
  latitude : ℚ
  longitude : ℚ
deriving DecidableEq

/-- A places-API HTTP response: `response.status_code` and
`response.json().get("features", [])` (the latter only read when the status is
200). -/
structure Response where
  status : Nat
  features : List Feature
deriving DecidableEq

/-- One result of the Google geocoding response:
`data["results"][i]["geometry"]["location"]` holding `lat` and `lng`. -/
structure GeoResult where
  lat : ℚ
  lng : ℚ
deriving DecidableEq

/-- A geocoding HTTP response: status code and the `results` array. -/
structure GeocodeResponse where
  status : Nat
  results : List GeoResult
deriving DecidableEq

/-- The user-visible messages the script emits via `st.error` / `st.write`,
abstracted from their f-string renderings. -/
inductive Msg where
  /-- `st.error(f"Error fetching data from Geoapify: {response.status_code}")` -/
  | geoapifyError (status : Nat)
  /-- `st.error("No facilities found within the state boundary.")` -/
  | noFacilities
  /-- `st.write(f"Found {len(facilities)} facilities within {selected_state}.")` -/
  | foundFacilities (n : Nat) (state : String)
  /-- `st.error(f"Failed to add state boundary or fetch facilities: {e}")` -/
  | boundaryFailed
  /-- `st.error("Please select a state for boundary analysis.")` -/
  | selectState
  /-- `st.error("Location not found. Please try again.")` -/
  | locationNotFound
  /-- `st.write(f"Using location: {location_query} (Latitude: ..., Longitude: ...)")` -/
  | usingLocation (query : String) (lat lon : ℚ)
deriving DecidableEq

/-- A folium `Marker`: location, popup HTML, icon colour. -/
structure Marker where
  lat : ℚ
  lon : ℚ
  popup : String
  color : String
deriving DecidableEq

/-- A folium `Map` under construction: centre, `zoom_start`, the names of the
`GeoJson` overlays added to it, and its markers. -/
structure MapScene where
  centerLat : ℚ
  centerLon : ℚ
  zoomStart : Nat
  overlays : List String
  markers : List Marker
deriving DecidableEq

/-- `st.session_state`: the `"map"` slot (`None` initially) and the
`"facilities"` slot (an empty DataFrame initially). -/
structure SessionState where
  map : Option MapScene
  facilities : List Facility
deriving DecidableEq

/-- Lines 24-28: `st.session_state["map"] = None`,
`st.session_state["facilities"] = pd.DataFrame()`. -/
def initialSession : SessionState := { map := none, facilities := [] }

/-- Lines 52-60: build one facility row from a feature. Indexing
`geometry.get("coordinates", [])[1]` (then `[0]`) raises `IndexError` when the
list is too short, modelled as `none`; the dict literal evaluates the
`latitude` entry (index 1) before the `longitude` entry (index 0). -/
def parseFeature (f : Feature) : Option Facility :=
  match f.coordinates[1]? with
  | none => none
  | some la =>
    match f.coordinates[0]? with
    | none => none
    | some lo =>
      some { name := f.name.getD "Unknown", address := f.formatted.getD "N/A",
             latitude := la, longitude := lo }

/-- Lines 51-60: the `for feature in features` loop appending one facility per
feature, in order; the first failing feature aborts the whole page with an
exception (`none`). -/
def parseFeatures : List Feature → Option (List Facility)
  | [] => some []
  | f :: rest =>
    match parseFeature f, parseFeatures rest with
    | some fac, some facs => some (fac :: facs)
    | _, _ => none

/-- Outcome of the pagination loop of
`fetch_healthcare_data_within_state_paginated`; each outcome records the
`(limit, offset)` pairs of the HTTP requests issued. `result` is a normal
`return pd.DataFrame(facilities)`, carrying the status code surfaced by
`st.error` if a page failed; `exn` is an uncaught exception while parsing a
page; `diverge` is fuel exhaustion (the source loop is `while True`). -/
inductive FetchOutcome where
  | result (facilities : List Facility) (errorStatus : Option Nat)
      (requests : List (Nat × Nat))
  | exn (requests : List (Nat × Nat))
  | diverge (requests : List (Nat × Nat))
deriving DecidableEq

/-- Lines 37-64: the `while True` pagination loop. `limit = 100` is fixed; a
200-status page with no features breaks the loop; a 200-status non-empty page
is parsed and appended and `offset += limit`; a non-200 status emits the error
and breaks. The provider is the abstracted HTTP endpoint, taking the request's
`limit` and `offset`. -/
def fetchLoop (provider : Nat → Nat → Response) :
    Nat → Nat → List Facility → List (Nat × Nat) → FetchOutcome
  | 0, _, _, reqs => FetchOutcome.diverge reqs
  | Nat.succ fuel, offset, acc, reqs =>
    let limit := 100
    let resp := provider limit offset
    let reqs2 := reqs ++ [(limit, offset)]
    if resp.status = 200 then
      match resp.features with
      | [] => FetchOutcome.result acc none reqs2
      | g :: gs =>
        match parseFeatures (g :: gs) with
        | none => FetchOutcome.exn reqs2
        | some fs => fetchLoop provider fuel (offset + limit) (acc ++ fs) reqs2
    else
      FetchOutcome.result acc (some resp.status) reqs2

/-- Lines 30-65: `fetch_healthcare_data_within_state_paginated`, starting from
`facilities = []`, `offset = 0`. -/
def fetch_healthcare_data_within_state_paginated
    (provider : Nat → Nat → Response) (fuel : Nat) : FetchOutcome :=
  fetchLoop provider fuel 0 [] []

/-- Python truthiness of an optional float: `None`, `0` and `0.0` are falsy. -/
def pyTruthy : Option ℚ → Bool
  | none => false
  | some x => x ≠ 0

/-- Lines 81-91: `get_lat_lon_from_query`. On HTTP 200 with a non-empty
`results` array, returns the first result's `(lat, lng)`; otherwise emits
"Location not found" and returns `(None, None)`. -/
def get_lat_lon_from_query (resp : GeocodeResponse) :
    (Option ℚ × Option ℚ) × List Msg :=
  if resp.status = 200 then
    match resp.results with
    | r :: _ => ((some r.lat, some r.lng), [])
    | [] => ((none, none), [Msg.locationNotFound])
  else
    ((none, none), [Msg.locationNotFound])

/-- Lines 112-117: the `if location_query:` block. The coordinates from the
widgets are overridden only when `lat and lon` is truthy (both non-`None` and
non-zero). Returns the effective `(latitude, longitude)` plus messages. -/
def applyLocationQuery (location_query : String) (latitude longitude : ℚ)
    (resp : GeocodeResponse) : (ℚ × ℚ) × List Msg :=
  if location_query = "" then ((latitude, longitude), [])
  else
    let r := get_lat_lon_from_query resp
    let la := r.1.1
    let lo := r.1.2
    if pyTruthy la && pyTruthy lo then
      ((la.getD 0, lo.getD 0),
        r.2 ++ [Msg.usingLocation location_query (la.getD 0) (lo.getD 0)])
    else
      ((latitude, longitude), r.2)

/-- Lines 148-152: a blue facility marker with the
`<b>{name}</b><br>Address: {address}` popup. -/
def facilityMarker (fac : Facility) : Marker :=
  { lat := fac.latitude, lon := fac.longitude,
    popup := "<b>" ++ fac.name ++ "</b><br>Address: " ++ fac.address,
    color := "blue" }

/-- Python `str.strip()`: leading and trailing whitespace removed. -/
def pyStrip (s : String) : String :=
  String.mk
    (((s.data.dropWhile Char.isWhitespace).reverse.dropWhile
        Char.isWhitespace).reverse)

/-- Lines 119-158: the body of the Search button handler, producing the folium
map that will be stored together with the emitted messages. `none` models a
non-terminating pagination loop. The base map is built first with
`zoom_start = 6 if selected_state else 12`; the `GeoJson` boundary overlay is
added only after the fetch returned normally (an exception inside the `try`
skips it and is caught, emitting the failure message); the `else` branch of
`if selected_state and selected_state.strip():` only emits the
select-a-state error. -/
def searchClick (fuel : Nat) (provider : Nat → Nat → Response)
    (latitude longitude : ℚ) (selected_state : String) :
    Option (MapScene × List Msg) :=
  let m : MapScene :=
    { centerLat := latitude, centerLon := longitude,
      zoomStart := if selected_state = "" then 12 else 6,
      overlays := [], markers := [] }
  if selected_state ≠ "" ∧ pyStrip selected_state ≠ "" then
    match fetch_healthcare_data_within_state_paginated provider fuel with
    | FetchOutcome.diverge _ => none
    | FetchOutcome.exn _ => some (m, [Msg.boundaryFailed])
    | FetchOutcome.result facs errSt _ =>
      let fetchMsgs := match errSt with
        | some c => [Msg.geoapifyError c]
        | none => []
      let m2 := { m with overlays := ["Boundary: " ++ selected_state] }
      if facs.isEmpty then
        some (m2, fetchMsgs ++ [Msg.noFacilities])
      else
        some ({ m2 with markers := facs.map facilityMarker },
          fetchMsgs ++ [Msg.foundFacilities facs.length selected_state])
  else
    some (m, [Msg.selectState])

/-- Lines 119-160: the whole Search handler, ending with
`st.session_state["map"] = m` (executed on every click, whatever happened
above); `st.session_state["facilities"]` is never written. -/
def searchHandler (fuel : Nat) (provider : Nat → Nat → Response)
    (latitude longitude : ℚ) (selected_state : String) (s : SessionState) :
    Option (SessionState × List Msg) :=
  match searchClick fuel provider latitude longitude selected_state with
  | none => none
  | some (m, msgs) => some ({ s with map := some m }, msgs)

/-- Lines 164-171: the default map shown when no scene is stored: zoom 12, a
single red `info-sign` marker "Current Location" at the input coordinates. -/
def defaultScene (latitude longitude : ℚ) : MapScene :=
  { centerLat := latitude, centerLon := longitude, zoomStart := 12,
    overlays := [],
    markers := [{ lat := latitude, lon := longitude,
                  popup := "Current Location", color := "red" }] }

/-- Lines 162-171: the render pass displays the stored scene if there is one,
else the default scene. -/
def renderPass (s : SessionState) (latitude longitude : ℚ) : MapScene :=
  match s.map with
  | some m => m
  | none => defaultScene latitude longitude

/-- Number of current-location markers in a scene. Per the app's legend
(lines 96-99), the current-location marker is the red one; facility markers
are blue. -/
def countCurrentMarkers (m : MapScene) : Nat :=
  (m.markers.filter (fun mk => mk.color = "red")).length

/-! ### Helper lemmas -/

theorem parseFeatures_length (l : List Feature) (l' : List Facility)
    (h : parseFeatures l = some l') : l'.length = l.length := by
  induction l generalizing l' with
  | nil =>
    simp only [parseFeatures, Option.some.injEq] at h
    simp [← h]
  | cons f t ih =>
    unfold parseFeatures at h
    cases hf : parseFeature f with
    | none => rw [hf] at h; simp at h
    | some fac =>
      rw [hf] at h
      cases ht : parseFeatures t with
      | none => rw [ht] at h; simp at h
      | some fs =>
        rw [ht] at h
        simp only [Option.some.injEq] at h
        subst h
        simp [ih fs ht]

theorem parseFeatures_eq_none_of_mem (l : List Feature) (f : Feature)
    (hm : f ∈ l) (hf : parseFeature f = none) : parseFeatures l = none := by
  induction l with
  | nil => cases hm
  | cons g t ih =>
    unfold parseFeatures
    rcases List.mem_cons.mp hm with h | h
    · subst h; rw [hf]
    · cases hg : parseFeature g
      · rfl
      · rw [ih h]

theorem fetchLoop_step_page (provider : Nat → Nat → Response)
    (fuel offset : Nat) (acc : List Facility) (reqs : List (Nat × Nat))
    (g : Feature) (gs : List Feature) (fs : List Facility)
    (h : provider 100 offset = { status := 200, features := g :: gs })
    (hp : parseFeatures (g :: gs) = some fs) :
    fetchLoop provider (fuel + 1) offset acc reqs =
      fetchLoop provider fuel (offset + 100) (acc ++ fs)
        (reqs ++ [(100, offset)]) := by
  simp only [fetchLoop, h, hp, if_true]

theorem fetchLoop_step_empty (provider : Nat → Nat → Response)
    (fuel offset : Nat) (acc : List Facility) (reqs : List (Nat × Nat))
    (h : provider 100 offset = { status := 200, features := [] }) :
    fetchLoop provider (fuel + 1) offset acc reqs =
      FetchOutcome.result acc none (reqs ++ [(100, offset)]) := by
  simp only [fetchLoop, h, if_true]

theorem fetchLoop_step_err (provider : Nat → Nat → Response)
    (fuel offset : Nat) (acc : List Facility) (reqs : List (Nat × Nat))
    (h : (provider 100 offset).status ≠ 200) :
    fetchLoop provider (fuel + 1) offset acc reqs =
      FetchOutcome.result acc (some (provider 100 offset).status)
        (reqs ++ [(100, offset)]) := by
  simp only [fetchLoop, if_neg h]

/-! ### Concrete fixtures -/

/-- A well-formed feature with `coordinates = [lon, lat] = [1, 2]` and no
optional properties. -/
def featW : Feature := { name := none, formatted := none, coordinates := [1, 2] }

/-- The facility `featW` parses to: both defaults applied, latitude `2`,
longitude `1`. -/
def facW : Facility :=
  { name := "Unknown", address := "N/A", latitude := 2, longitude := 1 }

/-- A feature with a name but no formatted address. -/
def featB : Feature :=
  { name := some "B", formatted := none, coordinates := [10, 20] }

/-- The facility `featB` parses to. -/
def facB : Facility :=
  { name := "B", address := "N/A", latitude := 20, longitude := 10 }

/-- A feature with both optional properties present. -/
def featA : Feature :=
  { name := some "A", formatted := some "addr", coordinates := [-121.5, 38.6] }

/-- The facility `featA` parses to. -/
def facA : Facility :=
  { name := "A", address := "addr", latitude := 38.6, longitude := -121.5 }

/-- A feature whose coordinates array has a single element. -/
def featShort : Feature := { name := none, formatted := none, coordinates := [1] }

/-- Mock provider for pagination: pages of sizes 100, 100, 37, then empty. -/
def provC1 : Nat → Nat → Response := fun _ offset =>
  if offset = 0 then { status := 200, features := List.replicate 100 featW }
  else if offset = 100 then { status := 200, features := List.replicate 100 featW }
  else if offset = 200 then { status := 200, features := List.replicate 37 featW }
  else { status := 200, features := [] }

/-- Mock provider: first page has one feature, second page fails with 500. -/
def provC2 : Nat → Nat → Response := fun _ offset =>
  if offset = 0 then { status := 200, features := [featB] }
  else { status := 500, features := [] }

/-- Mock provider: first page has one feature, second page is empty. -/
def provC3 : Nat → Nat → Response := fun _ offset =>
  if offset = 0 then { status := 200, features := [featA] }
  else { status := 200, features := [] }

/-- Mock provider: first page has one feature (`featB`), second page empty. -/
def provC4 : Nat → Nat → Response := fun _ offset =>
  if offset = 0 then { status := 200, features := [featB] }
  else { status := 200, features := [] }

/-- Mock provider that always returns an empty page. -/
def provNull : Nat → Nat → Response := fun _ _ => { status := 200, features := [] }

theorem parseFeatures_replicate_featW (n : Nat) :
    parseFeatures (List.replicate n featW) = some (List.replicate n facW) := by
  induction n with
  | zero => rfl
  | succ k ih =>
    have hf : parseFeature featW = some facW := rfl
    simp [List.replicate_succ, parseFeatures, hf, ih]

/-! ### Claim theorems -/

/-- C1: in boundary mode the paginated fetch issues requests with fixed page
size 100 and offsets increasing by 100, stopping exactly on the first empty
page; for pages of sizes [100, 100, 37, 0] it makes exactly 4 requests at
offsets 0, 100, 200, 300 and returns 237 rows in page order then within-page
order. -/
theorem c1_boundary_pagination (provider : Nat → Nat → Response)
    (l0 l1 l2 : List Feature) (f0 f1 f2 : List Facility) (fuel : Nat)
    (h0 : provider 100 0 = { status := 200, features := l0 })
    (h1 : provider 100 100 = { status := 200, features := l1 })
    (h2 : provider 100 200 = { status := 200, features := l2 })
    (h3 : provider 100 300 = { status := 200, features := [] })
    (hl0 : l0.length = 100) (hl1 : l1.length = 100) (hl2 : l2.length = 37)
    (hp0 : parseFeatures l0 = some f0) (hp1 : parseFeatures l1 = some f1)
    (hp2 : parseFeatures l2 = some f2) :
    fetch_healthcare_data_within_state_paginated provider (fuel + 4) =
      FetchOutcome.result (f0 ++ f1 ++ f2) none
        [(100, 0), (100, 100), (100, 200), (100, 300)] ∧
    (f0 ++ f1 ++ f2).length = 237 := by
  have e0 := parseFeatures_length l0 f0 hp0
  have e1 := parseFeatures_length l1 f1 hp1
  have e2 := parseFeatures_length l2 f2 hp2
  obtain ⟨g0, gs0, rfl⟩ : ∃ g gs, l0 = g :: gs := by
    cases l0 with
    | nil => simp at hl0
    | cons g gs => exact ⟨g, gs, rfl⟩
  obtain ⟨g1, gs1, rfl⟩ : ∃ g gs, l1 = g :: gs := by
    cases l1 with
    | nil => simp at hl1
    | cons g gs => exact ⟨g, gs, rfl⟩
  obtain ⟨g2, gs2, rfl⟩ : ∃ g gs, l2 = g :: gs := by
    cases l2 with
    | nil => simp at hl2
    | cons g gs => exact ⟨g, gs, rfl⟩
  constructor
  · calc fetch_healthcare_data_within_state_paginated provider (fuel + 4)
        = fetchLoop provider (fuel + 4) 0 [] [] := rfl
      _ = fetchLoop provider (fuel + 3) (0 + 100) ([] ++ f0) ([] ++ [(100, 0)]) :=
          fetchLoop_step_page provider (fuel + 3) 0 [] [] g0 gs0 f0 h0 hp0
      _ = fetchLoop provider (fuel + 2) (0 + 100 + 100) (([] ++ f0) ++ f1)
            (([] ++ [(100, 0)]) ++ [(100, 0 + 100)]) :=
          fetchLoop_step_page provider (fuel + 2) (0 + 100) ([] ++ f0)
            ([] ++ [(100, 0)]) g1 gs1 f1 h1 hp1
      _ = fetchLoop provider (fuel + 1) (0 + 100 + 100 + 100)
            ((([] ++ f0) ++ f1) ++ f2)
            ((([] ++ [(100, 0)]) ++ [(100, 0 + 100)]) ++ [(100, 0 + 100 + 100)]) :=
          fetchLoop_step_page provider (fuel + 1) (0 + 100 + 100) (([] ++ f0) ++ f1)
            (([] ++ [(100, 0)]) ++ [(100, 0 + 100)]) g2 gs2 f2 h2 hp2
      _ = FetchOutcome.result ((([] ++ f0) ++ f1) ++ f2) none
            (((([] ++ [(100, 0)]) ++ [(100, 0 + 100)]) ++ [(100, 0 + 100 + 100)]) ++
              [(100, 0 + 100 + 100 + 100)]) :=
          fetchLoop_step_empty provider fuel (0 + 100 + 100 + 100)
            ((([] ++ f0) ++ f1) ++ f2)
            ((([] ++ [(100, 0)]) ++ [(100, 0 + 100)]) ++ [(100, 0 + 100 + 100)]) h3
      _ = FetchOutcome.result (f0 ++ f1 ++ f2) none
            [(100, 0), (100, 100), (100, 200), (100, 300)] := by
          simp [List.append_assoc]
  · rw [List.length_append, List.length_append, e0, e1, e2, hl0, hl1, hl2]

/-- Closed witness for `c1_boundary_pagination` at the mock provider
`provC1`. -/
theorem c1_boundary_pagination_witness :
    fetch_healthcare_data_within_state_paginated provC1 (0 + 4) =
      FetchOutcome.result
        (List.replicate 100 facW ++ List.replicate 100 facW ++
          List.replicate 37 facW) none
        [(100, 0), (100, 100), (100, 200), (100, 300)] ∧
    (List.replicate 100 facW ++ List.replicate 100 facW ++
      List.replicate 37 facW).length = 237 :=
  c1_boundary_pagination provC1
    (List.replicate 100 featW) (List.replicate 100 featW) (List.replicate 37 featW)
    (List.replicate 100 facW) (List.replicate 100 facW) (List.replicate 37 facW)
    0 rfl rfl rfl rfl (by simp) (by simp) (by simp)
    (parseFeatures_replicate_featW 100) (parseFeatures_replicate_featW 100)
    (parseFeatures_replicate_featW 37)

/-- C2 counterexample: with one successful page of one facility followed by a
500-status page, the fetch returns the retained facility, not an empty
table. -/
theorem c2_counterexample :
    fetch_healthcare_data_within_state_paginated provC2 10 =
      FetchOutcome.result [facB] (some 500) [(100, 0), (100, 100)] ∧
    [facB] ≠ ([] : List Facility) := by
  exact ⟨rfl, by decide⟩

/-- C2 (amended): a non-success status stops pagination and surfaces the
status code, but facilities accumulated from earlier successful pages are
retained: the fetch returns the partial table, not an empty one. -/
theorem c2_error_stops_keeps_accumulated (provider : Nat → Nat → Response)
    (g : Feature) (gs : List Feature) (f0 : List Facility) (code fuel : Nat)
    (h0 : provider 100 0 = { status := 200, features := g :: gs })
    (hp0 : parseFeatures (g :: gs) = some f0)
    (h1 : (provider 100 100).status = code) (hc : code ≠ 200) :
    fetch_healthcare_data_within_state_paginated provider (fuel + 2) =
      FetchOutcome.result f0 (some code) [(100, 0), (100, 100)] := by
  calc fetch_healthcare_data_within_state_paginated provider (fuel + 2)
      = fetchLoop provider (fuel + 2) 0 [] [] := rfl
    _ = fetchLoop provider (fuel + 1) (0 + 100) ([] ++ f0) ([] ++ [(100, 0)]) :=
        fetchLoop_step_page provider (fuel + 1) 0 [] [] g gs f0 h0 hp0
    _ = FetchOutcome.result ([] ++ f0) (some (provider 100 (0 + 100)).status)
          (([] ++ [(100, 0)]) ++ [(100, 0 + 100)]) :=
        fetchLoop_step_err provider fuel (0 + 100) ([] ++ f0) ([] ++ [(100, 0)])
          (by rw [Nat.zero_add, h1]; exact hc)
    _ = FetchOutcome.result f0 (some code) [(100, 0), (100, 100)] := by
        rw [Nat.zero_add, h1]; simp

/-- Closed witness for `c2_error_stops_keeps_accumulated` at `provC2`. -/
theorem c2_error_stops_keeps_accumulated_witness :
    fetch_healthcare_data_within_state_paginated provC2 (3 + 2) =
      FetchOutcome.result [facB] (some 500) [(100, 0), (100, 100)] :=
  c2_error_stops_keeps_accumulated provC2 featB [] [facB] 500 3
    rfl rfl rfl (by decide)

/-- The scene the Search handler builds for `provC3` with state
"California". -/
def sceneC3 : MapScene :=
  { centerLat := 38.5449, centerLon := -121.7405, zoomStart := 6,
    overlays := ["Boundary: California"], markers := [facilityMarker facA] }

/-- The session after that search. -/
def sessionC3 : SessionState := { map := some sceneC3, facilities := [] }

/-- C3: a search-built scene contains zero current-location (red) markers —
only the no-search default scene contains one — contradicting the claim (and
the app's own legend) that every search-built scene has exactly one
current-location marker at the centre. -/
theorem c3_search_scene_has_no_current_marker :
    searchHandler 10 provC3 (38.5449 : ℚ) (-121.7405 : ℚ) "California"
        initialSession =
      some (sessionC3, [Msg.foundFacilities 1 "California"]) ∧
    countCurrentMarkers (renderPass sessionC3 38.5449 (-121.7405)) = 0 ∧
    countCurrentMarkers (renderPass initialSession 38.5449 (-121.7405)) = 1 :=
  ⟨rfl, rfl, rfl⟩

/-- The scene the Search handler builds for `provC4` with state "X" centred at
the origin. -/
def sceneC4 : MapScene :=
  { centerLat := 0, centerLon := 0, zoomStart := 6,
    overlays := ["Boundary: X"], markers := [facilityMarker facB] }

/-- C4 counterexample: a completed search whose fetch returns one facility
leaves `st.session_state["facilities"]` empty — the slot does not hold the
fetched table. -/
theorem c4_counterexample :
    fetch_healthcare_data_within_state_paginated provC4 10 =
      FetchOutcome.result [facB] none [(100, 0), (100, 100)] ∧
    searchHandler 10 provC4 0 0 "X" initialSession =
      some ({ map := some sceneC4, facilities := [] },
        [Msg.foundFacilities 1 "X"]) ∧
    ([] : List Facility) ≠ [facB] :=
  ⟨rfl, rfl, by decide⟩

/-- C4 (amended): both session slots start absent/empty, but a completed
search sets only the map slot; the facilities slot is never written and keeps
its previous (initially empty) value. -/
theorem c4_facilities_slot_never_written (fuel : Nat)
    (provider : Nat → Nat → Response) (latitude longitude : ℚ)
    (selected_state : String) (s s' : SessionState) (msgs : List Msg)
    (h : searchHandler fuel provider latitude longitude selected_state s =
      some (s', msgs)) :
    s'.facilities = s.facilities ∧ initialSession.map = none ∧
    initialSession.facilities = ([] : List Facility) := by
  refine ⟨?_, rfl, rfl⟩
  unfold searchHandler at h
  cases hc : searchClick fuel provider latitude longitude selected_state with
  | none => rw [hc] at h; exact Option.noConfusion h
  | some pair =>
    obtain ⟨m, ms⟩ := pair
    rw [hc] at h
    simp only [Option.some.injEq, Prod.mk.injEq] at h
    obtain ⟨h1, h2⟩ := h
    rw [← h1]

/-- The bare scene a BoundaryRequired click centred at (3, 4) builds. -/
def bareScene34 : MapScene :=
  { centerLat := 3, centerLon := 4, zoomStart := 12,
    overlays := [], markers := [] }

/-- The session such a click leaves behind, starting from `initialSession`. -/
def sessionAfterBare : SessionState :=
  { map := some bareScene34, facilities := [] }

/-- Closed witness for `c4_facilities_slot_never_written` at a concrete
click. -/
theorem c4_facilities_slot_never_written_witness :
    sessionAfterBare.facilities = initialSession.facilities ∧
    initialSession.map = none ∧
    initialSession.facilities = ([] : List Facility) :=
  c4_facilities_slot_never_written 1 provNull 3 4 "" initialSession
    sessionAfterBare [Msg.selectState] rfl

/-- C5: when geocoding fails (non-success status or zero results), the
NotFound message is surfaced and the latitude/longitude inputs keep their
prior values — they are never zeroed or left undefined. -/
theorem c5_geocode_failure_keeps_coordinates (q : String)
    (latitude longitude : ℚ) (resp : GeocodeResponse) (hq : q ≠ "")
    (hfail : resp.status ≠ 200 ∨ resp.results = []) :
    applyLocationQuery q latitude longitude resp =
      ((latitude, longitude), [Msg.locationNotFound]) := by
  have hg : get_lat_lon_from_query resp = ((none, none), [Msg.locationNotFound]) := by
    unfold get_lat_lon_from_query
    rcases hfail with h | h
    · rw [if_neg h]
    · by_cases hs : resp.status = 200
      · rw [if_pos hs, h]
      · rw [if_neg hs]
  unfold applyLocationQuery
  rw [if_neg hq, hg]
  simp [pyTruthy]

/-- Closed witness for `c5_geocode_failure_keeps_coordinates` at the default
coordinates and an empty geocoding result. -/
theorem c5_geocode_failure_keeps_coordinates_witness :
    applyLocationQuery "nowhere-at-all" 38.5449 (-121.7405)
        { status := 200, results := [] } =
      (((38.5449 : ℚ), (-121.7405 : ℚ)), [Msg.locationNotFound]) :=
  c5_geocode_failure_keeps_coordinates "nowhere-at-all" 38.5449 (-121.7405)
    { status := 200, results := [] } (by decide) (Or.inr rfl)

/-- C6: every parsed facility takes its latitude from
`geometry.coordinates[1]` and its longitude from `geometry.coordinates[0]` —
the provider's [lon, lat] axis order is preserved, never swapped. -/
theorem c6_axis_order_preserved (f : Feature) (fac : Facility)
    (h : parseFeature f = some fac) :
    f.coordinates[1]? = some fac.latitude ∧
    f.coordinates[0]? = some fac.longitude := by
  unfold parseFeature at h
  cases h1 : f.coordinates[1]? with
  | none => rw [h1] at h; exact Option.noConfusion h
  | some la =>
    rw [h1] at h
    cases h0 : f.coordinates[0]? with
    | none => rw [h0] at h; exact Option.noConfusion h
    | some lo =>
      rw [h0] at h
      injection h with h
      subst h
      exact ⟨rfl, rfl⟩

/-- Closed witness for `c6_axis_order_preserved` at `featB`. -/
theorem c6_axis_order_preserved_witness :
    featB.coordinates[1]? = some facB.latitude ∧
    featB.coordinates[0]? = some facB.longitude :=
  c6_axis_order_preserved featB facB rfl

/-- The bare base map a click builds before anything is added: centre at the
inputs, zoom 12 when no state is selected, no overlays, no markers. -/
def bareScene (latitude longitude : ℚ) : MapScene :=
  { centerLat := latitude, centerLon := longitude, zoomStart := 12,
    overlays := [], markers := [] }

/-- A session already holding a stored scene from an earlier search. -/
def priorSession : SessionState :=
  { map := some (defaultScene 1 2), facilities := [] }

/-- C7 counterexample: clicking Search in boundary mode with no state chosen
replaces the previously stored scene with a fresh bare base map — the prior
SessionState scene is not left in place. -/
theorem c7_counterexample :
    searchHandler 5 provNull 3 4 "" priorSession =
      some ({ map := some bareScene34, facilities := [] }, [Msg.selectState]) ∧
    some bareScene34 ≠ some (defaultScene 1 2) := by
  exact ⟨rfl, by decide⟩

/-- C7 (amended): a BoundaryRequired attempt (boundary mode with no region
chosen) leaves the facilities slot untouched but always overwrites the stored
map scene with a fresh bare base map centred at the current coordinates
(zoom 12, no overlays, no markers), surfacing the select-a-state message. -/
theorem c7_boundary_required_replaces_scene (fuel : Nat)
    (provider : Nat → Nat → Response) (latitude longitude : ℚ)
    (s : SessionState) :
    searchHandler fuel provider latitude longitude "" s =
      some ({ s with map := some (bareScene latitude longitude) },
        [Msg.selectState]) := by
  simp [searchHandler, searchClick, bareScene]

/-- C8: a parsed facility's name is the feature's name with default "Unknown"
when absent, and its address is the feature's formatted address with default
"N/A" when absent; present values are used unchanged. -/
theorem c8_default_name_address (f : Feature) (fac : Facility)
    (h : parseFeature f = some fac) :
    (f.name = none → fac.name = "Unknown") ∧
    (f.formatted = none → fac.address = "N/A") ∧
    fac.name = f.name.getD "Unknown" ∧
    fac.address = f.formatted.getD "N/A" := by
  unfold parseFeature at h
  cases h1 : f.coordinates[1]? with
  | none => rw [h1] at h; exact Option.noConfusion h
  | some la =>
    rw [h1] at h
    cases h0 : f.coordinates[0]? with
    | none => rw [h0] at h; exact Option.noConfusion h
    | some lo =>
      rw [h0] at h
      injection h with h
      subst h
      refine ⟨fun hn => by rw [hn]; rfl, fun ha => by rw [ha]; rfl, rfl, rfl⟩

/-- Closed witness for `c8_default_name_address` at `featB` (name present,
formatted address absent). -/
theorem c8_default_name_address_witness :
    (featB.name = none → facB.name = "Unknown") ∧
    (featB.formatted = none → facB.address = "N/A") ∧
    facB.name = featB.name.getD "Unknown" ∧
    facB.address = featB.formatted.getD "N/A" :=
  c8_default_name_address featB facB rfl

/-- C9: when geocoding succeeds but the resolved latitude or longitude equals
0, the truthiness test `if lat and lon:` rejects the override and the input
coordinates stay in effect, exactly as when nothing was found (and silently:
no message is emitted). -/
theorem c9_zero_coordinate_rejected (q : String) (latitude longitude : ℚ)
    (resp : GeocodeResponse) (r : GeoResult) (rest : List GeoResult)
    (hq : q ≠ "") (hs : resp.status = 200) (hr : resp.results = r :: rest)
    (h0 : r.lat = 0 ∨ r.lng = 0) :
    applyLocationQuery q latitude longitude resp =
      ((latitude, longitude), []) := by
  have hg : get_lat_lon_from_query resp = ((some r.lat, some r.lng), []) := by
    unfold get_lat_lon_from_query
    rw [if_pos hs, hr]
  unfold applyLocationQuery
  rw [if_neg hq, hg]
  rcases h0 with h | h
  · simp [pyTruthy, h]
  · simp [pyTruthy, h]

/-- Closed witness for `c9_zero_coordinate_rejected`: a result on the equator
(latitude 0) does not override the default coordinates. -/
theorem c9_zero_coordinate_rejected_witness :
    applyLocationQuery "Null Island" 38.5449 (-121.7405)
        { status := 200, results := [{ lat := 0, lng := 10 }] } =
      (((38.5449 : ℚ), (-121.7405 : ℚ)), []) :=
  c9_zero_coordinate_rejected "Null Island" 38.5449 (-121.7405)
    { status := 200, results := [{ lat := 0, lng := 10 }] }
    { lat := 0, lng := 10 } [] (by decide) rfl rfl (Or.inl rfl)

/-- C10: a feature whose coordinates array has fewer than two elements makes
the page parse raise (model: `none`) rather than skip the feature or default
it — facility parsing is not total over arbitrary feature shapes. -/
theorem c10_short_coordinates_raise (features : List Feature) (f : Feature)
    (hm : f ∈ features) (hlen : f.coordinates.length < 2) :
    parseFeature f = none ∧ parseFeatures features = none := by
  have h1 : f.coordinates[1]? = none := List.getElem?_eq_none (by omega)
  have hf : parseFeature f = none := by
    unfold parseFeature
    rw [h1]
  exact ⟨hf, parseFeatures_eq_none_of_mem features f hm hf⟩

/-- Closed witness for `c10_short_coordinates_raise` at a one-element
coordinates array. -/
theorem c10_short_coordinates_raise_witness :
    parseFeature featShort = none ∧ parseFeatures [featShort] = none :=
  c10_short_coordinates_raise [featShort] featShort (by decide) (by decide)
